import Mathlib

/-!
Shallow embedding of the packer template generator (`tool_v1.2.py`).

Interactive input, subprocess execution and the filesystem are externalized:
every function that reads user input takes the entered string as a parameter,
the listing command's captured stdout is a parameter, the outcome of each
install attempt is a parameter, and file writes are returned as explicit
`FileWrite` values instead of being performed.  Machine behaviour such as
`sys.exit(n)` is modelled by explicit outcome/exit values.  Python string
operations are translated at the character-list level: `str.strip` drops
whitespace on both ends, `str.lower` maps `Char.toLower`, `str.split()`
splits on whitespace runs and drops empty fields, `"x".join` interleaves the
separator, `splitlines` splits on newline characters, and `s.split('.')[0]`
is the prefix of `s` before its first dot.
-/

/-- Python `str.strip()`: drop leading and trailing whitespace. -/
def pyStrip (s : String) : String :=
  ⟨((s.data.dropWhile Char.isWhitespace).reverse.dropWhile Char.isWhitespace).reverse⟩

/-- Python `str.lower()` (ASCII behaviour). -/
def pyLower (s : String) : String :=
  ⟨s.data.map Char.toLower⟩

/-- Python `sep.join(parts)`. -/
def strJoin (sep : String) : List String → String
  | [] => ""
  | [x] => x
  | x :: y :: t => x ++ sep ++ strJoin sep (y :: t)

/-- Python `str.splitlines()` on newline-separated command output. -/
def pySplitlines (s : String) : List String :=
  (s.data.splitOn (Char.ofNat 10)).map (fun l => (⟨l⟩ : String))

/-- Python `str.split()` with no argument: split on whitespace runs,
dropping empty fields. -/
def pySplitWs (s : String) : List String :=
  ((s.data.splitOnP Char.isWhitespace).map (fun l => (⟨l⟩ : String))).filter
    (fun t => t ≠ "")

/-- Python `s.split('.')[0]`: the prefix of `s` before its first dot
(`s` itself when `s` has no dot). -/
def pyDotHead (s : String) : String :=
  ⟨s.data.takeWhile (fun c => c != '.')⟩

/-- `get_installed_packages`, with the listing command's stdout passed in as
`output` (`run_command` failure is modelled upstream).  The unsupported
branch calls `sys.exit(1)`, modelled as `.error 1`. -/
def get_installed_packages (package_manager : String) (output : String) :
    Except Nat (List String) :=
  if package_manager = "apt" then
    .ok ((pySplitlines output).foldl (fun packages line =>
      if "ii".data.isPrefixOf line.data then
        match pySplitWs line with
        | _ :: name :: _ => packages ++ [name]
        | _ => packages
      else packages) [])
  else if package_manager = "yum" then
    .ok (((pySplitlines output).drop 1).foldl (fun packages line =>
      match pySplitWs line with
      | [] => packages
      | f :: _ => packages ++ [pyDotHead f]) [])
  else if package_manager = "pacman" then
    .ok ((pySplitlines output).foldl (fun packages line =>
      match pySplitWs line with
      | [] => packages
      | f :: _ => packages ++ [f]) [])
  else .error 1

/-- `prompt_operating_system`, with the user's entered string as parameter. -/
def prompt_operating_system (entered : String) : String :=
  let choice := pyStrip entered
  if choice = "2" then "centos"
  else if choice = "3" then "arch"
  else "ubuntu"

/-- `get_package_manager`. -/
def get_package_manager (os_choice : String) : String :=
  if os_choice = "debian" ∨ os_choice = "ubuntu" then "apt"
  else if os_choice = "centos" then "yum"
  else if os_choice = "arch" then "pacman"
  else "apt"

/-- The `install_commands` lookup table of `install_provisioning_tool`:
`install_commands.get(package_manager, \x7b\x7d).get(tool)`. -/
def install_commands (package_manager tool : String) : Option (List String) :=
  if package_manager = "apt" then
    if tool = "ansible" then some ["sudo", "apt-get", "install", "-y", "ansible"]
    else if tool = "puppet" then some ["sudo", "apt-get", "install", "-y", "puppet"]
    else none
  else if package_manager = "yum" then
    if tool = "ansible" then some ["sudo", "yum", "install", "-y", "ansible"]
    else if tool = "puppet" then some ["sudo", "yum", "install", "-y", "puppet"]
    else none
  else if package_manager = "pacman" then
    if tool = "ansible" then some ["sudo", "pacman", "-S", "--noconfirm", "ansible"]
    else if tool = "puppet" then some ["sudo", "pacman", "-S", "--noconfirm", "puppet"]
    else none
  else none

/-- `input(...).strip().lower() == "y"`: an affirmative confirmation. -/
def isYes (s : String) : Bool := pyLower (pyStrip s) = "y"

/-- Result of one install attempt: the spawned command either succeeds
(after which `check_tool_installed` reports `present`) or raises. -/
inductive AttemptResult
  | ok (present : Bool)
  | err
deriving DecidableEq

/-- How a call to `install_provisioning_tool` ends: `sys.exit code`, or an
ordinary `return b`. -/
inductive Outcome
  | exit (code : Nat)
  | ret (b : Bool)
deriving DecidableEq

/-- The `while attempt < max_retries` loop of `install_provisioning_tool`.
`results k` is the outcome of the k-th attempt (1-based), `retry k` the
string the user enters at the retry prompt after attempt `k` fails.
Returns the final outcome and the number of attempts made.  Falling out of
the loop reaches `sys.exit(1)`. -/
def installLoop (results : Nat → AttemptResult) (retry : Nat → String)
    (maxRetries : Nat) : Nat → Nat → Outcome × Nat
  | attempt, 0 => (.exit 1, attempt)
  | attempt, remaining + 1 =>
    let a := attempt + 1
    match results a with
    | .ok true => (.ret true, a)
    | .ok false => installLoop results retry maxRetries a remaining
    | .err =>
      if a < maxRetries then
        if isYes (retry a) then installLoop results retry maxRetries a remaining
        else (.exit 1, a)
      else installLoop results retry maxRetries a remaining

/-- `install_provisioning_tool`: looks up the install command; a missing
entry logs and returns `False`; otherwise the initial confirmation is
required (declining exits), then up to `max_retries = 3` attempts run. -/
def install_provisioning_tool (tool package_manager : String)
    (confirm : String) (results : Nat → AttemptResult)
    (retry : Nat → String) : Outcome × Nat :=
  match install_commands package_manager tool with
  | none => (.ret false, 0)
  | some _ =>
    if isYes confirm then installLoop results retry 3 0 3
    else (.exit 1, 0)

/-- `prompt_provision_method`: choice `"2"` selects ansible, `"3"` puppet,
anything else shell.  When the tool is absent, `install_provisioning_tool`
runs; its return value is ignored, but a `sys.exit` inside it propagates
(`.error code`). -/
def prompt_provision_method (entered : String)
    (ansibleInstalled puppetInstalled : Bool) (package_manager : String)
    (confirm : String) (results : Nat → AttemptResult)
    (retry : Nat → String) : Except Nat String :=
  let choice := pyStrip entered
  if choice = "2" then
    if ansibleInstalled then .ok "ansible"
    else
      match install_provisioning_tool "ansible" package_manager confirm results retry with
      | (.exit c, _) => .error c
      | (.ret _, _) => .ok "ansible"
  else if choice = "3" then
    if puppetInstalled then .ok "puppet"
    else
      match install_provisioning_tool "puppet" package_manager confirm results retry with
      | (.exit c, _) => .error c
      | (.ret _, _) => .ok "puppet"
  else .ok "shell"

/-- A file produced by the tool: path, content, and the mode set by a
subsequent `os.chmod` (when any). -/
structure FileWrite where
  name : String
  content : String
  mode : Option Nat
deriving DecidableEq

/-- The `script_lines` list of the shell branch of `generate_install_script`. -/
def script_lines (package_manager : String) (packages : List String) : List String :=
  ["#!/bin/bash",
   "sudo " ++ package_manager ++ " update",
   "sudo " ++ package_manager ++ " install -y " ++ strJoin " " packages]

/-- The `playbook` line list of the ansible branch of
`generate_install_script` (it never mentions the package manager). -/
def playbook_lines (packages : List String) : List String :=
  ["---",
   "- hosts: all",
   "  become: yes",
   "  vars:",
   "    packages:"]
  ++ packages.map (fun pkg => "      - " ++ pkg)
  ++ ["  tasks:",
      "    - name: Update apt cache",
      "      apt:",
      "        update_cache: yes",
      "    - name: Install packages",
      "      apt:",
      "        name: \x27\x7b\x7b packages \x7d\x7d\x27",
      "        state: present"]

/-- The `manifest` line list of the puppet branch of
`generate_install_script`. -/
def manifest_lines (packages : List String) : List String :=
  ["# Minimal Puppet manifest",
   "node default \x7b",
   "  package \x7b " ++ strJoin ", " (packages.map (fun pkg => "\x27" ++ pkg ++ "\x27")) ++ ":",
   "    ensure => installed,",
   "  \x7d",
   "\x7d"]

/-- `generate_install_script`: the list of files written (empty when the
method matches no branch). -/
def generate_install_script (packages : List String) (method : String)
    (package_manager : String) : List FileWrite :=
  if method = "shell" then
    [⟨"install_packages.sh", strJoin "\n" (script_lines package_manager packages), some 0o755⟩]
  else if method = "ansible" then
    [⟨"playbook.yml", strJoin "\n" (playbook_lines packages), none⟩]
  else if method = "puppet" then
    [⟨"manifest.pp", strJoin "\n" (manifest_lines packages), none⟩]
  else []

/-- The `hcl_lines` list of `generate_packer_template`, with the
`datetime.now().strftime` timestamp passed in. -/
def hcl_lines (provision_method : String) (timestamp : String) : List String :=
  ["source \"virtualbox-iso\" \"ubuntu_attackbox\" \x7b",
   "  iso_url           = \"http://releases.ubuntu.com/20.04/ubuntu-20.04.6-live-server-amd64.iso\"",
   "  iso_checksum      = \"<YOUR_ISO_CHECKSUM_HERE>\"",
   "  ssh_username      = \"packer\"",
   "  ssh_password      = \"packer\"",
   "  vm_name           = \"ubuntu-attackbox-" ++ timestamp ++ "\"",
   "  guest_os_type     = \"Ubuntu_64\"",
   "  shutdown_command  = \"echo \x27packer\x27 | sudo -S shutdown -P now\"",
   "\x7d",
   "",
   "build \x7b",
   "  sources = [ \"source.virtualbox-iso.ubuntu_attackbox\" ]",
   ""]
  ++ (if provision_method = "shell" then
        ["  provisioner \"shell\" \x7b",
         "    script = \"install_packages.sh\"",
         "  \x7d"]
      else if provision_method = "ansible" then
        ["  provisioner \"ansible-local\" \x7b",
         "    playbook_file = \"playbook.yml\"",
         "  \x7d"]
      else if provision_method = "puppet" then
        ["  provisioner \"shell\" \x7b",
         "    inline = [\"puppet apply manifest.pp\"]",
         "  \x7d"]
      else [])
  ++ ["\x7d"]

/-- `generate_packer_template`: the single file it writes. -/
def generate_packer_template (provision_method : String) (timestamp : String) :
    FileWrite :=
  ⟨"template.pkr.hcl", strJoin "\n" (hcl_lines provision_method timestamp), none⟩

/-- Externalized inputs of one run of `main`: the strings the user enters,
whether the listing command succeeds (and its stdout), which tools are on
`PATH`, and the install-attempt outcomes. -/
structure Env where
  osChoice : String
  listingOutput : Option String
  methodChoice : String
  ansibleInstalled : Bool
  puppetInstalled : Bool
  installConfirm : String
  attemptResults : Nat → AttemptResult
  retryAnswers : Nat → String
  timestamp : String

/-- How a run of `main` ends (`some c` models `sys.exit c`, `none` a normal
exit) together with the artifact files written, in order. -/
structure MainResult where
  exitCode : Option Nat
  files : List FileWrite
deriving DecidableEq

/-- The `main` workflow: OS prompt, package-manager lookup, package scan,
method prompt, artifact generation, packer template.  Artifact files are
written only in the last two steps. -/
def mainModel (env : Env) : MainResult :=
  let os_choice := prompt_operating_system env.osChoice
  let package_manager := get_package_manager os_choice
  match env.listingOutput with
  | none => ⟨some 1, []⟩
  | some out =>
    match get_installed_packages package_manager out with
    | .error c => ⟨some c, []⟩
    | .ok packages =>
      match prompt_provision_method env.methodChoice env.ansibleInstalled
          env.puppetInstalled package_manager env.installConfirm
          env.attemptResults env.retryAnswers with
      | .error c => ⟨some c, []⟩
      | .ok method =>
        ⟨none, generate_install_script packages method package_manager
                 ++ [generate_packer_template method env.timestamp]⟩

/-- A line opens a provisioner block iff its first 15 characters are
`  provisioner "` (analysis predicate over generated lines). -/
def isProvLine (l : String) : Bool :=
  l.data.take 15 == "  provisioner \"".data

/-- A playbook line is a package variable-list entry iff its first 8
characters are six spaces, a dash and a space (analysis predicate). -/
def isVarEntry (l : String) : Bool :=
  l.data.take 8 == "      - ".data

/-- Per-line extraction of the yum branch: the first whitespace-delimited
field of the line, truncated before its first dot; `none` when the line has
no field. -/
def yumLineName (line : String) : Option String :=
  match pySplitWs line with
  | [] => none
  | f :: _ => some (pyDotHead f)

/-- The provisioner block each method puts into the build descriptor: a
shell block referencing the script, an ansible-local block referencing the
playbook, or a shell block inlining the manifest-apply command. -/
def provBlock (method : String) : List String :=
  if method = "shell" then
    ["  provisioner \"shell\" \x7b",
     "    script = \"install_packages.sh\"",
     "  \x7d"]
  else if method = "ansible" then
    ["  provisioner \"ansible-local\" \x7b",
     "    playbook_file = \"playbook.yml\"",
     "  \x7d"]
  else if method = "puppet" then
    ["  provisioner \"shell\" \x7b",
     "    inline = [\"puppet apply manifest.pp\"]",
     "  \x7d"]
  else []

/-! Helper lemmas. -/

lemma strData_ext {a b : String} (h : a.data = b.data) : a = b := by
  cases a; cases b; cases h; rfl

lemma strData_injective : Function.Injective String.data := by
  intro a b h; exact strData_ext h

lemma takeWhile_append_cons (p : Char → Bool) :
    ∀ (l : List Char) (x : Char) (r : List Char),
      (∀ c ∈ l, p c = true) → p x = false → (l ++ x :: r).takeWhile p = l := by
  intro l
  induction l with
  | nil => intro x r _ hx; simp [List.takeWhile_cons, hx]
  | cons c t ih =>
    intro x r hl hx
    have hc : p c = true := hl c (by simp)
    simp [List.takeWhile_cons, hc]
    exact ih x r (fun d hd => hl d (by simp [hd])) hx

lemma yum_foldl_eq (ls : List String) (acc : List String) :
    ls.foldl (fun packages line =>
      match pySplitWs line with
      | [] => packages
      | f :: _ => packages ++ [pyDotHead f]) acc = acc ++ ls.filterMap yumLineName := by
  induction ls generalizing acc with
  | nil => simp
  | cons h t ih =>
    rw [List.foldl_cons, List.filterMap_cons]
    cases hs : pySplitWs h with
    | nil => simp only [hs, yumLineName]; exact ih acc
    | cons f r =>
      simp only [hs, yumLineName]
      rw [ih (acc ++ [pyDotHead f])]
      simp

/-- C1 counterexample: on the yum listing line `python3.9.x86_64 3.9.1 @base`
the code takes the first field up to its FIRST dot and produces `python3`,
not the `python3.9` the claim requires (truncation before the final
dot-delimited suffix). -/
theorem c1_counterexample :
    get_installed_packages "yum" "Installed Packages\npython3.9.x86_64 3.9.1 @base"
      = Except.ok ["python3"]
    ∧ ("python3" : String) ≠ "python3.9" := by
  exact ⟨rfl, by decide⟩

/-- C1 (amended): for the yum family, `get_installed_packages` skips the
first (header) line and, for each remaining line whose whitespace split is
non-empty, takes the first field truncated before its FIRST dot (so a field
`a.b` with `a` dot-free yields `a`, and `python3.9.x86_64` yields
`python3`). -/
theorem c1_yum_first_dot (output : String) (a b : String) (ha : '.' ∉ a.data) :
    get_installed_packages "yum" output
      = Except.ok (((pySplitlines output).drop 1).filterMap yumLineName)
    ∧ pyDotHead (a ++ "." ++ b) = a := by
  constructor
  · have h0 : get_installed_packages "yum" output
        = Except.ok (((pySplitlines output).drop 1).foldl
            (fun packages line =>
              match pySplitWs line with
              | [] => packages
              | f :: _ => packages ++ [pyDotHead f]) []) := rfl
    rw [h0]
    exact congrArg Except.ok
      ((yum_foldl_eq ((pySplitlines output).drop 1) []).trans (List.nil_append _))
  · unfold pyDotHead
    have hd : (a ++ "." ++ b).data = a.data ++ '.' :: b.data := by
      rw [String.data_append, String.data_append, List.append_assoc]
      rfl
    rw [hd, takeWhile_append_cons _ _ '.' _ ?ha ?hx]
    case ha =>
      intro c hc
      simp only [bne_iff_ne, ne_eq, decide_eq_true_eq]
      intro h
      exact ha (h ▸ hc)
    case hx => rfl

/-- C1 witness: the amended theorem applied at a concrete output and a
concrete dotted field. -/
theorem c1_witness :
    get_installed_packages "yum" "Installed Packages\nbash.x86_64 5.0 @base"
      = Except.ok (((pySplitlines "Installed Packages\nbash.x86_64 5.0 @base").drop 1).filterMap yumLineName)
    ∧ pyDotHead ("python3" ++ "." ++ "9.x86_64") = "python3" :=
  c1_yum_first_dot "Installed Packages\nbash.x86_64 5.0 @base" "python3" "9.x86_64" (by decide)

/-- C2 counterexample: for the pair (ansible, brew) no install command is
defined, yet `install_provisioning_tool` merely returns `False` (no exit),
and the provisioning-method selection completes normally with `ansible`. -/
theorem c2_counterexample :
    install_provisioning_tool "ansible" "brew" "y" (fun _ => .err) (fun _ => "")
      = (Outcome.ret false, 0)
    ∧ prompt_provision_method "2" false false "brew" "y" (fun _ => .err) (fun _ => "")
      = Except.ok "ansible" :=
  ⟨rfl, rfl⟩

/-- C2 (amended): for every (tool, package-manager) pair with no install
command in the lookup table, `install_provisioning_tool` logs the failure
and returns `False` without prompting, attempting, or exiting; the caller
ignores the result, so provisioning-method selection completes normally
with the chosen method. -/
theorem c2_missing_command_no_abort (tool pm confirm : String)
    (results : Nat → AttemptResult) (retry : Nat → String)
    (h : install_commands pm tool = none) :
    install_provisioning_tool tool pm confirm results retry = (Outcome.ret false, 0)
    ∧ (install_commands pm "ansible" = none →
        prompt_provision_method "2" false false pm confirm results retry
          = Except.ok "ansible")
    ∧ (install_commands pm "puppet" = none →
        prompt_provision_method "3" false false pm confirm results retry
          = Except.ok "puppet") := by
  refine ⟨?_, ?_, ?_⟩
  · unfold install_provisioning_tool
    rw [h]
  · intro h2
    have e : pyStrip "2" = "2" := rfl
    unfold prompt_provision_method install_provisioning_tool
    rw [e, h2]
    rfl
  · intro h3
    have e : pyStrip "3" = "3" := rfl
    unfold prompt_provision_method install_provisioning_tool
    rw [e, h3]
    rfl

/-- C2 witness: the amended theorem at the concrete pair (puppet, brew). -/
theorem c2_witness :
    install_provisioning_tool "puppet" "brew" "n" (fun _ => .ok true) (fun _ => "")
      = (Outcome.ret false, 0)
    ∧ prompt_provision_method "3" false false "brew" "n" (fun _ => .ok true) (fun _ => "")
      = Except.ok "puppet" := by
  have h := c2_missing_command_no_abort "puppet" "brew" "n"
    (fun _ => .ok true) (fun _ => "") rfl
  exact ⟨h.1, h.2.2 rfl⟩

/-- C3: for every timestamp and every method among shell, ansible and
puppet, the build descriptor ties to `template.pkr.hcl`, its lines contain
exactly one provisioner-opening line, the block appended is exactly the one
the method maps to (shell-script reference, ansible-local playbook
reference, or shell block inlining the manifest apply), and that block's
opening line is the unique provisioner line, so no other provisioner block
type occurs. -/
theorem c3_provisioner_block (ts m : String)
    (hm : m = "shell" ∨ m = "ansible" ∨ m = "puppet") :
    generate_packer_template m ts
      = ⟨"template.pkr.hcl", strJoin "\n" (hcl_lines m ts), none⟩
    ∧ (hcl_lines m ts).countP (fun l => isProvLine l) = 1
    ∧ isProvLine ((provBlock m).headD "") = true
    ∧ ∃ before after, hcl_lines m ts = before ++ provBlock m ++ after := by
  rcases hm with h | h | h <;> subst h <;>
    exact ⟨rfl, rfl, rfl, ⟨_, _, rfl⟩⟩

/-- C3 witness: the theorem applied at the puppet method and a concrete
timestamp. -/
theorem c3_witness :
    generate_packer_template "puppet" "20240101"
      = ⟨"template.pkr.hcl", strJoin "\n" (hcl_lines "puppet" "20240101"), none⟩
    ∧ (hcl_lines "puppet" "20240101").countP (fun l => isProvLine l) = 1
    ∧ isProvLine ((provBlock "puppet").headD "") = true
    ∧ ∃ before after, hcl_lines "puppet" "20240101" = before ++ provBlock "puppet" ++ after :=
  c3_provisioner_block "20240101" "puppet" (Or.inr (Or.inr rfl))

lemma installLoop_succ_eq (results : Nat → AttemptResult) (retry : Nat → String)
    (m attempt n : Nat) :
    installLoop results retry m attempt (n + 1) =
      match results (attempt + 1) with
      | .ok true => (.ret true, attempt + 1)
      | .ok false => installLoop results retry m (attempt + 1) n
      | .err =>
        if attempt + 1 < m then
          (if isYes (retry (attempt + 1)) then installLoop results retry m (attempt + 1) n
           else (.exit 1, attempt + 1))
        else installLoop results retry m (attempt + 1) n := rfl

lemma installLoop_spec (results : Nat → AttemptResult) (retry : Nat → String) :
    ∀ (remaining attempt : Nat), attempt + remaining ≤ 3 →
      attempt ≤ (installLoop results retry 3 attempt remaining).2 ∧
      (installLoop results retry 3 attempt remaining).2 ≤ attempt + remaining ∧
      ((installLoop results retry 3 attempt remaining).1 = .ret true ∧
         results (installLoop results retry 3 attempt remaining).2 = .ok true ∨
       (installLoop results retry 3 attempt remaining).1 = .exit 1) ∧
      (∀ k, attempt < k → k < (installLoop results retry 3 attempt remaining).2 →
         results k = .err → isYes (retry k) = true) := by
  intro remaining
  induction remaining with
  | zero =>
    intro attempt h
    refine ⟨Nat.le_refl _, by simp [installLoop], Or.inr rfl, ?_⟩
    intro k hk1 hk2 _
    simp only [installLoop] at hk2
    omega
  | succ n ih =>
    intro attempt h
    rw [installLoop_succ_eq]
    cases hres : results (attempt + 1) with
    | ok present =>
      cases present with
      | true =>
        dsimp only
        refine ⟨by omega, by omega, Or.inl ⟨rfl, hres⟩, ?_⟩
        intro k hk1 hk2 _
        omega
      | false =>
        dsimp only
        obtain ⟨ih1, ih2, ih3, ih4⟩ := ih (attempt + 1) (by omega)
        refine ⟨by omega, by omega, ih3, ?_⟩
        intro k hk1 hk2 hkr
        rcases Nat.lt_or_ge (attempt + 1) k with hlt | hge
        · exact ih4 k hlt hk2 hkr
        · have hk : k = attempt + 1 := by omega
          rw [hk, hres] at hkr
          exact absurd hkr (by simp)
    | err =>
      dsimp only
      by_cases hlt3 : attempt + 1 < 3
      · rw [if_pos hlt3]
        by_cases hy : isYes (retry (attempt + 1)) = true
        · rw [if_pos hy]
          obtain ⟨ih1, ih2, ih3, ih4⟩ := ih (attempt + 1) (by omega)
          refine ⟨by omega, by omega, ih3, ?_⟩
          intro k hk1 hk2 hkr
          rcases Nat.lt_or_ge (attempt + 1) k with hlt | hge
          · exact ih4 k hlt hk2 hkr
          · have hk : k = attempt + 1 := by omega
            rw [hk]
            exact hy
        · rw [if_neg hy]
          refine ⟨by omega, by omega, Or.inr rfl, ?_⟩
          intro k hk1 hk2 _
          omega
      · rw [if_neg hlt3]
        obtain ⟨ih1, ih2, ih3, ih4⟩ := ih (attempt + 1) (by omega)
        refine ⟨by omega, by omega, ih3, ?_⟩
        intro k hk1 hk2 hkr
        rcases Nat.lt_or_ge (attempt + 1) k with hlt | hge
        · exact ih4 k hlt hk2 hkr
        · have hk : k = attempt + 1 := by omega
          omega

/-- C4: in `install_provisioning_tool` at most 3 install attempts are ever
made; every retry that follows a failed attempt was preceded by an
affirmative retry confirmation; and once the lookup succeeded and the
initial confirmation was affirmative, the call either returns `True` with
the tool verified present after the last attempt, or reaches `sys.exit(1)`
(covering both exhausted retries and a declined retry). -/
theorem c4_retry_semantics (tool pm confirm : String)
    (results : Nat → AttemptResult) (retry : Nat → String) :
    (install_provisioning_tool tool pm confirm results retry).2 ≤ 3
    ∧ (∀ k, 0 < k → k < (install_provisioning_tool tool pm confirm results retry).2 →
        results k = .err → isYes (retry k) = true)
    ∧ ((install_commands pm tool).isSome = true → isYes confirm = true →
        ((install_provisioning_tool tool pm confirm results retry).1 = .ret true ∧
          results (install_provisioning_tool tool pm confirm results retry).2 = .ok true)
        ∨ (install_provisioning_tool tool pm confirm results retry).1 = .exit 1) := by
  unfold install_provisioning_tool
  cases hc : install_commands pm tool with
  | none =>
    dsimp only
    refine ⟨by omega, ?_, ?_⟩
    · intro k hk1 hk2 _
      omega
    · intro hs _
      simp at hs
  | some cmd =>
    dsimp only
    by_cases hy : isYes confirm = true
    · rw [if_pos hy]
      obtain ⟨h1, h2, h3, h4⟩ := installLoop_spec results retry 3 0 (by omega)
      exact ⟨by omega, fun k hk1 hk2 hkr => h4 k hk1 hk2 hkr, fun _ _ => h3⟩
    · rw [if_neg hy]
      refine ⟨by omega, ?_, ?_⟩
      · intro k hk1 hk2 _
        omega
      · intro _ hyc
        exact absurd hyc hy

/-- C4 witness: with every attempt failing and every retry confirmed, the
call makes its attempts and the guaranteed disjunction holds at this
concrete input. -/
theorem c4_witness :
    ((install_provisioning_tool "ansible" "apt" "y" (fun _ => AttemptResult.err)
        (fun _ => "y")).1 = Outcome.ret true ∧
      (fun _ => AttemptResult.err)
        ((install_provisioning_tool "ansible" "apt" "y" (fun _ => AttemptResult.err)
          (fun _ => "y")).2) = AttemptResult.ok true)
    ∨ (install_provisioning_tool "ansible" "apt" "y" (fun _ => AttemptResult.err)
        (fun _ => "y")).1 = Outcome.exit 1 :=
  (c4_retry_semantics "ansible" "apt" "y" (fun _ => AttemptResult.err)
    (fun _ => "y")).2.2 rfl rfl

lemma get_package_manager_cases (s : String) :
    get_package_manager s = "apt" ∨ get_package_manager s = "yum" ∨
      get_package_manager s = "pacman" := by
  unfold get_package_manager
  split
  · exact Or.inl rfl
  split
  · exact Or.inr (Or.inl rfl)
  split
  · exact Or.inr (Or.inr rfl)
  · exact Or.inl rfl

lemma get_installed_packages_ok (pm : String)
    (h : pm = "apt" ∨ pm = "yum" ∨ pm = "pacman") (out : String) :
    ∃ pkgs, get_installed_packages pm out = Except.ok pkgs := by
  rcases h with h | h | h <;> subst h <;> exact ⟨_, rfl⟩

lemma install_commands_ansible_some (s : String) :
    (install_commands (get_package_manager s) "ansible").isSome = true := by
  rcases get_package_manager_cases s with h | h | h <;> rw [h] <;> rfl

lemma install_commands_puppet_some (s : String) :
    (install_commands (get_package_manager s) "puppet").isSome = true := by
  rcases get_package_manager_cases s with h | h | h <;> rw [h] <;> rfl

lemma install_decline_exit (tool pm confirm : String)
    (results : Nat → AttemptResult) (retry : Nat → String)
    (hsome : (install_commands pm tool).isSome = true)
    (hno : isYes confirm = false) :
    install_provisioning_tool tool pm confirm results retry = (.exit 1, 0) := by
  unfold install_provisioning_tool
  cases hc : install_commands pm tool with
  | none => rw [hc] at hsome; simp at hsome
  | some cmd => simp [hno]

lemma prompt_decline_error (entered : String) (ai pi : Bool)
    (pm confirm : String) (results : Nat → AttemptResult) (retry : Nat → String)
    (hno : isYes confirm = false)
    (hansible : (install_commands pm "ansible").isSome = true)
    (hpuppet : (install_commands pm "puppet").isSome = true)
    (hch : (pyStrip entered = "2" ∧ ai = false) ∨ (pyStrip entered = "3" ∧ pi = false)) :
    prompt_provision_method entered ai pi pm confirm results retry = .error 1 := by
  unfold prompt_provision_method
  rcases hch with ⟨h2, ha⟩ | ⟨h3, hp⟩
  · rw [h2, ha, install_decline_exit "ansible" pm confirm results retry hansible hno]
    rfl
  · rw [h3, hp]
    by_cases hq : ("3" : String) = "2"
    · simp at hq
    · rw [if_neg hq, install_decline_exit "puppet" pm confirm results retry hpuppet hno]
      rfl

/-- C7: when the user declines the install-tool confirmation prompt (any
answer that does not strip-and-lower to `y`) after choosing ansible or
puppet with the tool absent, the run terminates with exit status 1 and the
list of artifact files written is empty: no `install_packages.sh`,
`playbook.yml`, `manifest.pp` or `template.pkr.hcl` is produced. -/
theorem c7_decline_no_artifacts (env : Env)
    (hdecl : isYes env.installConfirm = false)
    (hch : (pyStrip env.methodChoice = "2" ∧ env.ansibleInstalled = false) ∨
           (pyStrip env.methodChoice = "3" ∧ env.puppetInstalled = false)) :
    mainModel env = ⟨some 1, []⟩ := by
  unfold mainModel
  cases hlist : env.listingOutput with
  | none => rfl
  | some out =>
    dsimp only
    obtain ⟨pkgs, hok⟩ := get_installed_packages_ok
      (get_package_manager (prompt_operating_system env.osChoice))
      (get_package_manager_cases (prompt_operating_system env.osChoice)) out
    rw [hok]
    rw [prompt_decline_error env.methodChoice env.ansibleInstalled
      env.puppetInstalled _ env.installConfirm env.attemptResults env.retryAnswers
      hdecl (install_commands_ansible_some (prompt_operating_system env.osChoice))
      (install_commands_puppet_some (prompt_operating_system env.osChoice)) hch]

/-- C7 witness: a concrete run that chooses ansible while it is absent and
answers `n` at the confirmation terminates with exit 1 and writes nothing. -/
theorem c7_witness :
    mainModel ⟨"1", some "ii bash 5.0 amd64 shell", "2", false, false, "n",
      fun _ => AttemptResult.err, fun _ => "", "20240101"⟩ = ⟨some 1, []⟩ :=
  c7_decline_no_artifacts
    ⟨"1", some "ii bash 5.0 amd64 shell", "2", false, false, "n",
      fun _ => AttemptResult.err, fun _ => "", "20240101"⟩
    rfl (Or.inl ⟨rfl, rfl⟩)

/-- C8: any entered string that does not strip to one of the three listed
choices makes the OS prompt return the first choice (`ubuntu`, the
Debian/Ubuntu family) and makes the provisioning-method prompt return
`shell`, with neither prompt failing. -/
theorem c8_prompt_defaults (s : String) (ai pi : Bool) (pm confirm : String)
    (results : Nat → AttemptResult) (retry : Nat → String)
    (h1 : pyStrip s ≠ "1") (h2 : pyStrip s ≠ "2") (h3 : pyStrip s ≠ "3") :
    prompt_operating_system s = "ubuntu"
    ∧ prompt_provision_method s ai pi pm confirm results retry = Except.ok "shell" := by
  constructor
  · unfold prompt_operating_system
    simp [h2, h3]
  · unfold prompt_provision_method
    simp [h2, h3]

/-- C8 witness: the theorem at the unrecognized entry `7`. -/
theorem c8_witness :
    prompt_operating_system "7" = "ubuntu"
    ∧ prompt_provision_method "7" true true "apt" "y" (fun _ => AttemptResult.err)
        (fun _ => "") = Except.ok "shell" :=
  c8_prompt_defaults "7" true true "apt" "y" (fun _ => AttemptResult.err)
    (fun _ => "") (by decide) (by decide) (by decide)

/-- C9: `get_package_manager` is total and only returns `apt`, `yum` or
`pacman`, defaulting to `apt` on any unrecognized OS string; consequently
`get_installed_packages` applied to its result never reaches the fatal
unsupported-package-manager branch, for every listing output. -/
theorem c9_package_manager_total (s out : String) :
    (get_package_manager s = "apt" ∨ get_package_manager s = "yum" ∨
      get_package_manager s = "pacman")
    ∧ (s ≠ "debian" → s ≠ "ubuntu" → s ≠ "centos" → s ≠ "arch" →
        get_package_manager s = "apt")
    ∧ ∃ pkgs, get_installed_packages (get_package_manager s) out = Except.ok pkgs := by
  refine ⟨get_package_manager_cases s, ?_,
    get_installed_packages_ok _ (get_package_manager_cases s) out⟩
  intro h1 h2 h3 h4
  unfold get_package_manager
  simp [h1, h2, h3, h4]

/-- C9 witness: the theorem at the unrecognized OS string `windows`. -/
theorem c9_witness :
    get_package_manager "windows" = "apt"
    ∧ ∃ pkgs, get_installed_packages (get_package_manager "windows") ""
        = Except.ok pkgs :=
  ⟨(c9_package_manager_total "windows" "").2.1 (by decide) (by decide)
      (by decide) (by decide),
   (c9_package_manager_total "windows" "").2.2⟩

/-- C10: called with a method that matches none of shell, ansible, puppet,
`generate_install_script` writes no file and raises nothing: it returns the
empty list of file writes. -/
theorem c10_unknown_method_noop (packages : List String) (pm m : String)
    (h1 : m ≠ "shell") (h2 : m ≠ "ansible") (h3 : m ≠ "puppet") :
    generate_install_script packages m pm = [] := by
  unfold generate_install_script
  simp [h1, h2, h3]

/-- C10 witness: the theorem at the concrete method `chef`. -/
theorem c10_witness :
    generate_install_script ["bash", "curl"] "chef" "apt" = [] :=
  c10_unknown_method_noop ["bash", "curl"] "apt" "chef"
    (by decide) (by decide) (by decide)

lemma count_map_data (ps : List String) (p : String) :
    (ps.map String.data).count p.data = ps.count p := by
  induction ps with
  | nil => rfl
  | cons x t ih =>
    rw [List.map_cons, List.count_cons, List.count_cons, ih]
    by_cases hx : x = p
    · subst hx; simp
    · have hd : x.data ≠ p.data := fun hc => hx (strData_ext hc)
      simp [hx, hd]

lemma strJoin_space_data (ps : List String) :
    (strJoin " " ps).data = [' '].intercalate (ps.map String.data) := by
  induction ps with
  | nil => rfl
  | cons x t ih =>
    cases t with
    | nil => simp [strJoin, List.intercalate]
    | cons y t2 =>
      have e : strJoin " " (x :: y :: t2) = x ++ " " ++ strJoin " " (y :: t2) := rfl
      rw [e, String.data_append, String.data_append, ih]
      simp only [List.map_cons]
      rw [show [' '].intercalate (x.data :: y.data :: List.map String.data t2)
            = x.data ++ [' '] ++ [' '].intercalate (y.data :: List.map String.data t2) from by
          simp [List.intercalate, List.intersperse_cons_cons]]

lemma splitOn_strJoin_space (ps : List String) (hne : ps ≠ [])
    (hsp : ∀ p ∈ ps, ' ' ∉ p.data) :
    (strJoin " " ps).data.splitOn ' ' = ps.map String.data := by
  rw [strJoin_space_data]
  refine List.splitOn_intercalate (ps.map String.data) ' ' ?_ ?_
  · intro l hl
    rcases List.mem_map.mp hl with ⟨p, hp, rfl⟩
    exact hsp p hp
  · simp [hne]

lemma shebang_ne_update (pm : String) :
    ("#!/bin/bash" : String) ≠ "sudo " ++ pm ++ " update" := by
  intro h
  have h2 := congrArg (fun s => s.data.length) h
  simp [String.data_append, List.length_append] at h2
  try omega

lemma shebang_ne_install (pm : String) (ps : List String) :
    ("#!/bin/bash" : String) ≠ "sudo " ++ pm ++ " install -y " ++ strJoin " " ps := by
  intro h
  have h2 := congrArg (fun s => s.data.length) h
  simp [String.data_append, List.length_append] at h2
  try omega

lemma update_ne_install (pm : String) (ps : List String) :
    ("sudo " ++ pm ++ " update") ≠ "sudo " ++ pm ++ " install -y " ++ strJoin " " ps := by
  intro h
  have h2 := congrArg (fun s => s.data.length) h
  simp [String.data_append, List.length_append] at h2
  try omega

/-- C5: for every package manager and package list (non-empty, names free
of spaces), the shell method writes exactly `install_packages.sh` with mode
0755, whose three lines are the shebang, exactly one index-update line and
exactly one install line; splitting the install line's package portion on
spaces recovers exactly the input list, so each input package name occurs
exactly once, space-separated, in input order. -/
theorem c5_shell_script_shape (pm : String) (ps : List String) (hne : ps ≠ [])
    (hsp : ∀ p ∈ ps, ' ' ∉ p.data) :
    generate_install_script ps "shell" pm
      = [⟨"install_packages.sh", strJoin "\n" (script_lines pm ps), some 0o755⟩]
    ∧ script_lines pm ps
      = ["#!/bin/bash", "sudo " ++ pm ++ " update",
         "sudo " ++ pm ++ " install -y " ++ strJoin " " ps]
    ∧ (script_lines pm ps).count ("sudo " ++ pm ++ " update") = 1
    ∧ (script_lines pm ps).count ("sudo " ++ pm ++ " install -y " ++ strJoin " " ps) = 1
    ∧ (strJoin " " ps).data.splitOn ' ' = ps.map String.data
    ∧ ∀ p, ((strJoin " " ps).data.splitOn ' ').count p.data = ps.count p := by
  have hsplit := splitOn_strJoin_space ps hne hsp
  refine ⟨rfl, rfl, ?_, ?_, hsplit, ?_⟩
  · simp [script_lines, List.count_cons, Ne.symm (update_ne_install pm ps),
      shebang_ne_update pm]
  · simp [script_lines, List.count_cons, update_ne_install pm ps,
      shebang_ne_install pm ps]
  · intro p
    rw [hsplit]
    exact count_map_data ps p

/-- C5 witness: the theorem at the apt manager and the two-package list. -/
theorem c5_witness :
    generate_install_script ["bash", "curl"] "shell" "apt"
      = [⟨"install_packages.sh", strJoin "\n" (script_lines "apt" ["bash", "curl"]),
          some 0o755⟩]
    ∧ (strJoin " " ["bash", "curl"]).data.splitOn ' '
        = List.map String.data ["bash", "curl"]
    ∧ ((strJoin " " ["bash", "curl"]).data.splitOn ' ').count ("bash" : String).data
        = List.count "bash" ["bash", "curl"] := by
  have h := c5_shell_script_shape "apt" ["bash", "curl"] (by decide) (by decide)
  exact ⟨h.1, h.2.2.2.2.1, h.2.2.2.2.2 "bash"⟩

lemma isVarEntry_entry (p : String) : isVarEntry ("      - " ++ p) = true := rfl

lemma entry_count_zero (L : List String)
    (hL : L.all (fun l => !(isVarEntry l)) = true) (p : String) :
    L.count ("      - " ++ p) = 0 := by
  rw [List.count_eq_zero]
  intro hmem
  have hfalse := List.all_eq_true.mp hL _ hmem
  rw [isVarEntry_entry p] at hfalse
  simp at hfalse

lemma count_map_entry (ps : List String) (p : String) :
    (ps.map (fun q => "      - " ++ q)).count ("      - " ++ p) = ps.count p := by
  induction ps with
  | nil => rfl
  | cons x t ih =>
    rw [List.map_cons, List.count_cons, List.count_cons, ih]
    by_cases hx : x = p
    · subst hx; simp
    · have hd : "      - " ++ x ≠ "      - " ++ p := by
        intro hc
        have hc2 := congrArg String.data hc
        simp only [String.data_append] at hc2
        exact hx (strData_ext (List.append_cancel_left hc2))
      simp [hx, hd]

/-- C6: the ansible branch ignores the package-manager identity entirely
(identical output for any two identities), writes exactly `playbook.yml`,
its variable-list entries are exactly one per input package in input order
(extracted by the entry-line predicate), each package's entry occurs in the
playbook as often as the package occurs in the input, and the two tasks use
the apt module exactly twice regardless of the identity. -/
theorem c6_playbook_entries (ps : List String) (pm1 pm2 : String) :
    generate_install_script ps "ansible" pm1 = generate_install_script ps "ansible" pm2
    ∧ generate_install_script ps "ansible" pm1
        = [⟨"playbook.yml", strJoin "\n" (playbook_lines ps), none⟩]
    ∧ (playbook_lines ps).filter (fun l => isVarEntry l)
        = ps.map (fun p => "      - " ++ p)
    ∧ (playbook_lines ps).count "      apt:" = 2
    ∧ ∀ p, (playbook_lines ps).count ("      - " ++ p) = ps.count p := by
  refine ⟨rfl, rfl, ?_, ?_, ?_⟩
  · unfold playbook_lines
    rw [List.filter_append, List.filter_append]
    rw [show List.filter (fun l => isVarEntry l)
          ["---", "- hosts: all", "  become: yes", "  vars:", "    packages:"]
          = [] from rfl]
    rw [show List.filter (fun l => isVarEntry l)
          ["  tasks:", "    - name: Update apt cache", "      apt:",
           "        update_cache: yes", "    - name: Install packages",
           "      apt:", "        name: \x27\x7b\x7b packages \x7d\x7d\x27",
           "        state: present"] = [] from rfl]
    rw [List.append_nil, List.nil_append]
    exact List.filter_eq_self.mpr (fun a ha => by
      rcases List.mem_map.mp ha with ⟨p, _, rfl⟩
      exact isVarEntry_entry p)
  · unfold playbook_lines
    rw [List.count_append, List.count_append]
    rw [show List.count "      apt:"
          ["---", "- hosts: all", "  become: yes", "  vars:", "    packages:"]
          = 0 from rfl]
    rw [show List.count "      apt:"
          ["  tasks:", "    - name: Update apt cache", "      apt:",
           "        update_cache: yes", "    - name: Install packages",
           "      apt:", "        name: \x27\x7b\x7b packages \x7d\x7d\x27",
           "        state: present"] = 2 from rfl]
    have hm : (ps.map (fun p => "      - " ++ p)).count "      apt:" = 0 := by
      rw [List.count_eq_zero]
      intro hmem
      rcases List.mem_map.mp hmem with ⟨p, _, heq⟩
      have hv : isVarEntry "      apt:" = true := heq ▸ isVarEntry_entry p
      rw [show isVarEntry "      apt:" = false from rfl] at hv
      exact Bool.false_ne_true hv
    rw [hm]
  · intro p
    unfold playbook_lines
    rw [List.count_append, List.count_append]
    rw [entry_count_zero
      ["---", "- hosts: all", "  become: yes", "  vars:", "    packages:"]
      (by decide) p]
    rw [entry_count_zero
      ["  tasks:", "    - name: Update apt cache", "      apt:",
       "        update_cache: yes", "    - name: Install packages",
       "      apt:", "        name: \x27\x7b\x7b packages \x7d\x7d\x27",
       "        state: present"] (by decide) p]
    rw [count_map_entry ps p]
    omega
